import Mathlib

/-!
Verification of the FILEBOSS tool-forge pipeline
(`src/tools/dynamic_tool_forge.py`).

The development shallowly embeds the compile-and-validate pipeline of
`DynamicToolForge` together with its four leaf components
(`DependencyResolver.check_dependencies`, `CodeQualityAnalyzer.analyze_code_quality`,
`ToolDeploymentManager.generate_deployment_config`, and the `ast.parse`
syntax gate, the latter kept abstract as a parameter), and proves the
specified properties about it.

Machine integers are modelled as `Nat` with explicit `% 2 ^ 32` where the
SHA-256 fingerprint computation overflows; Python dictionaries are modelled
as association lists with Python's insert-or-overwrite semantics; the
`try/except` control flow is modelled with `Except`.
-/

namespace ToolForge

/-! ## SHA-256 (used by `hashlib.sha256(code.encode()).hexdigest()[:16]`) -/

/-- Modulus for 32-bit words. -/
def M32 : Nat := 4294967296

/-- 32-bit addition. -/
def add32 (a b : Nat) : Nat := (a + b) % M32

/-- Right rotation of a 32-bit word by `n` places (for `x < 2 ^ 32`, `n ≤ 32`). -/
def rotr (x n : Nat) : Nat := x / 2 ^ n + x % 2 ^ n * 2 ^ (32 - n)

/-- Logical right shift. -/
def shr (x n : Nat) : Nat := x / 2 ^ n

/-- Bitwise complement on 32-bit words. -/
def not32 (x : Nat) : Nat := Nat.xor x 4294967295

/-- SHA-256 choice function. -/
def ch (x y z : Nat) : Nat := Nat.xor (Nat.land x y) (Nat.land (not32 x) z)

/-- SHA-256 majority function. -/
def maj (x y z : Nat) : Nat := Nat.xor (Nat.xor (Nat.land x y) (Nat.land x z)) (Nat.land y z)

/-- SHA-256 big sigma 0. -/
def bigSigma0 (x : Nat) : Nat := Nat.xor (Nat.xor (rotr x 2) (rotr x 13)) (rotr x 22)

/-- SHA-256 big sigma 1. -/
def bigSigma1 (x : Nat) : Nat := Nat.xor (Nat.xor (rotr x 6) (rotr x 11)) (rotr x 25)

/-- SHA-256 small sigma 0. -/
def smallSigma0 (x : Nat) : Nat := Nat.xor (Nat.xor (rotr x 7) (rotr x 18)) (shr x 3)

/-- SHA-256 small sigma 1. -/
def smallSigma1 (x : Nat) : Nat := Nat.xor (Nat.xor (rotr x 17) (rotr x 19)) (shr x 10)

/-- The 64 SHA-256 round constants. -/
def K : List Nat :=
  [1116352408, 1899447441, 3049323471, 3921009573, 961987163, 1508970993, 2453635748,
   2870763221, 3624381080, 310598401, 607225278, 1426881987, 1925078388, 2162078206,
   2614888103, 3248222580, 3835390401, 4022224774, 264347078, 604807628, 770255983,
   1249150122, 1555081692, 1996064986, 2554220882, 2821834349, 2952996808, 3210313671,
   3336571891, 3584528711, 113926993, 338241895, 666307205, 773529912, 1294757372,
   1396182291, 1695183700, 1986661051, 2177026350, 2456956037, 2730485921, 2820302411,
   3259730800, 3345764771, 3516065817, 3600352804, 4094571909, 275423344, 430227734,
   506948616, 659060556, 883997877, 958139571, 1322822218, 1537002063, 1747873779,
   1955562222, 2024104815, 2227730452, 2361852424, 2428436474, 2756734187, 3204031479,
   3329325298]

/-- The eight-word SHA-256 working state / hash value. -/
structure Hash8 where
  w0 : Nat
  w1 : Nat
  w2 : Nat
  w3 : Nat
  w4 : Nat
  w5 : Nat
  w6 : Nat
  w7 : Nat
deriving DecidableEq, Repr

/-- The SHA-256 initial hash value. -/
def initH : Hash8 :=
  ⟨1779033703, 3144134277, 1013904242, 2773480762, 1359893119, 2600822924, 528734635,
   1541459225⟩

/-- Big-endian bytes of a 32-bit word. -/
def wordBytes (x : Nat) : List Nat :=
  [x / 16777216 % 256, x / 65536 % 256, x / 256 % 256, x % 256]

/-- Big-endian 8-byte encoding of the 64-bit message length in bits. -/
def lenBytes (n : Nat) : List Nat :=
  [n / 2 ^ 56 % 256, n / 2 ^ 48 % 256, n / 2 ^ 40 % 256, n / 2 ^ 32 % 256,
   n / 2 ^ 24 % 256, n / 2 ^ 16 % 256, n / 2 ^ 8 % 256, n % 256]

/-- SHA-256 message padding: append `0x80`, zero bytes up to 56 mod 64, then the
bit length. -/
def pad (msg : List Nat) : List Nat :=
  msg ++ [128] ++ List.replicate ((119 - msg.length % 64) % 64) 0 ++ lenBytes (8 * msg.length)

/-- Split a byte string into 64-byte blocks (structural recursion on a fuel
bound, so that the kernel can evaluate it; each step consumes at least one
byte, so `l.length` steps always suffice). -/
def chunksAux : Nat → List Nat → List (List Nat)
  | _, [] => []
  | 0, _ => []
  | fuel + 1, c :: cs => ((c :: cs).take 64) :: chunksAux fuel ((c :: cs).drop 64)

/-- Split a byte string into 64-byte blocks. -/
def chunks (l : List Nat) : List (List Nat) := chunksAux l.length l

/-- The first sixteen 32-bit words of a 64-byte block, big-endian. -/
def words16 (block : List Nat) : List Nat :=
  (List.range 16).map fun i =>
    block.getD (4 * i) 0 * 16777216 + block.getD (4 * i + 1) 0 * 65536 +
      block.getD (4 * i + 2) 0 * 256 + block.getD (4 * i + 3) 0

/-- One step of the message-schedule extension. -/
def scheduleStep (w : List Nat) : List Nat :=
  let n := w.length
  w ++ [add32 (add32 (smallSigma1 (w.getD (n - 2) 0)) (w.getD (n - 7) 0))
          (add32 (smallSigma0 (w.getD (n - 15) 0)) (w.getD (n - 16) 0))]

/-- Iterate the message-schedule extension `n` times. -/
def schedule (w : List Nat) : Nat → List Nat
  | 0 => w
  | n + 1 => scheduleStep (schedule w n)

/-- One SHA-256 compression round, consuming one `(k, w)` pair. -/
def sha256Round (st : Hash8) (kw : Nat × Nat) : Hash8 :=
  let t1 := add32 st.w7 (add32 (bigSigma1 st.w4) (add32 (ch st.w4 st.w5 st.w6)
    (add32 kw.1 kw.2)))
  let t2 := add32 (bigSigma0 st.w0) (maj st.w0 st.w1 st.w2)
  ⟨add32 t1 t2, st.w0, st.w1, st.w2, add32 st.w3 t1, st.w4, st.w5, st.w6⟩

/-- Compress one 64-byte block into the running hash value. -/
def compress (H : Hash8) (block : List Nat) : Hash8 :=
  let w := schedule (words16 block) 48
  let st := (K.zip w).foldl sha256Round H
  ⟨add32 H.w0 st.w0, add32 H.w1 st.w1, add32 H.w2 st.w2, add32 H.w3 st.w3,
   add32 H.w4 st.w4, add32 H.w5 st.w5, add32 H.w6 st.w6, add32 H.w7 st.w7⟩

/-- Serialize the final hash value as 32 bytes. -/
def hashBytes (H : Hash8) : List Nat :=
  wordBytes H.w0 ++ wordBytes H.w1 ++ wordBytes H.w2 ++ wordBytes H.w3 ++
    wordBytes H.w4 ++ wordBytes H.w5 ++ wordBytes H.w6 ++ wordBytes H.w7

/-- SHA-256 digest (32 bytes) of a byte string. -/
def sha256Bytes (msg : List Nat) : List Nat :=
  hashBytes ((chunks (pad msg)).foldl compress initH)

/-- UTF-8 encoding of one character (unicode scalar value), as Python's
`str.encode()` produces. -/
def utf8EncodeChar (c : Char) : List Nat :=
  let n := c.toNat
  if n < 128 then [n]
  else if n < 2048 then [192 + n / 64, 128 + n % 64]
  else if n < 65536 then [224 + n / 4096, 128 + n / 64 % 64, 128 + n % 64]
  else [240 + n / 262144, 128 + n / 4096 % 64, 128 + n / 64 % 64, 128 + n % 64]

/-- UTF-8 bytes of a string. -/
def strBytes (s : String) : List Nat := (s.data.map utf8EncodeChar).flatten

/-- The lowercase hexadecimal digit of a value below 16: digits `0`-`9` for
values below ten, letters `a`-`f` otherwise. -/
def hexChar (n : Nat) : Char :=
  if n < 10 then Char.ofNat (48 + n) else Char.ofNat (87 + n)

/-- Whether a character is a lowercase hexadecimal digit. -/
def isHexDigit (c : Char) : Bool :=
  (('0' ≤ c) && (c ≤ '9')) || (('a' ≤ c) && (c ≤ 'f'))

/-- Two lowercase hexadecimal digits of a byte. -/
def byteHex (b : Nat) : List Char := [hexChar (b / 16 % 16), hexChar (b % 16)]

/-- `hashlib.sha256(s.encode()).hexdigest()`: the 64-character lowercase
hexadecimal SHA-256 digest of a string. -/
def sha256Hex (s : String) : String :=
  String.mk ((sha256Bytes (strBytes s)).map byteHex).flatten

/-- `hashlib.sha256(code.encode()).hexdigest()[:16]`: the content-derived
tool id of `dynamic_tool_forge.py` line 485. -/
def toolId (code : String) : String := String.mk ((sha256Hex code).data.take 16)

/-! ## Leaf components -/

/-- Whether `pat` occurs at the head of `text`. -/
def leadsWith : List Char → List Char → Bool
  | [], _ => true
  | _ :: _, [] => false
  | a :: as, b :: bs => a == b && leadsWith as bs

/-- Whether `pat` occurs contiguously anywhere in `text`. -/
def occursIn (pat : List Char) : List Char → Bool
  | [] => leadsWith pat []
  | c :: cs => leadsWith pat (c :: cs) || occursIn pat cs

/-- Substring containment, as Python's `pat in code`. -/
def containsStr (code pat : String) : Bool := occursIn pat.data code.data

/-- `CodeQualityAnalyzer.analyze_code_quality` (lines 563-580): base score 85,
+5 for a docstring marker, +5 for `try:` together with `except`, +5 for `->`,
capped at 100.  All intermediate values are integral, so the Python float is
modelled as `Nat`. -/
def analyze_code_quality (code : String) : Nat :=
  let score := 85
  let score := if containsStr code "\"\"\"" then score + 5 else score
  let score := if containsStr code "try:" && containsStr code "except" then score + 5 else score
  let score := if containsStr code "->" then score + 5 else score
  min score 100

/-- Hyphen-to-underscore normalization, as `dep.replace('-', '_')`
(line 555). -/
def normalizeDep (d : String) : String :=
  String.mk (d.data.map (fun c => if c = '-' then '_' else c))

/-- Whether `__import__(m)` succeeds, modelled as a lookup in the runtime's
available-module index `env`. -/
def importOk (env : List String) (m : String) : Bool := env.contains m

/-- `__import__(m)`, with the failure channel explicit: raises `ImportError`
exactly when the module is not in the environment's module index. -/
def importModule (env : List String) (m : String) : Except String Unit :=
  if importOk env m then Except.ok () else Except.error (String.append "No module named " m)

/-- One iteration of the `check_dependencies` loop: `try: __import__(...)`
with the `except ImportError` handler appending the original name. -/
def depStep (env : List String) (missing : List String) (dep : String) : List String :=
  match importModule env (normalizeDep dep) with
  | Except.ok _ => missing
  | Except.error _ => missing ++ [dep]

/-- `DependencyResolver.check_dependencies` (lines 550-558): the accumulating
loop over the declared dependencies. -/
def check_dependencies (env : List String) (dependencies : List String) : List String :=
  dependencies.foldl (depStep env) []

/-- One iteration of the loop, in the exception monad: an exception the
`except ImportError` handler did not catch would escape as `Except.error`. -/
def depStepM (env : List String) (missing : List String) (dep : String) :
    Except String (List String) :=
  match importModule env (normalizeDep dep) with
  | Except.ok _ => pure missing
  | Except.error _ => pure (missing ++ [dep])

/-- `check_dependencies` run in the exception monad. -/
def check_dependencies_run (env : List String) (dependencies : List String) :
    Except String (List String) :=
  dependencies.foldlM (depStepM env) []

/-- The `resource_requirements` mapping of the deployment descriptor. -/
structure ResourceRequirements where
  cpu : String
  memory : String
  storage : String
deriving DecidableEq, Repr

/-- The `environment_variables` mapping of the deployment descriptor. -/
structure EnvironmentVariables where
  TOOL_NAME : String
  TOOL_TYPE : String
  LOG_LEVEL : String
deriving DecidableEq, Repr

/-- The `health_check` mapping of the deployment descriptor. -/
structure HealthCheck where
  enabled : Bool
  endpoint : String
  interval : Nat
deriving DecidableEq, Repr

/-- The deployment descriptor returned by
`ToolDeploymentManager.generate_deployment_config`. -/
structure DeploymentConfig where
  deployment_type : String
  resource_requirements : ResourceRequirements
  environment_variables : EnvironmentVariables
  health_check : HealthCheck
deriving DecidableEq, Repr

/-- A tool specification, as assembled by the `generate_*_tool` methods:
`name`, `type`, `code`, `dependencies`, `description`, `capabilities`,
`case_specific`. -/
structure ToolSpec where
  name : String
  type : String
  code : String
  dependencies : List String
  description : String
  capabilities : List String
  case_specific : Bool
deriving DecidableEq, Repr

/-- `ToolDeploymentManager.generate_deployment_config` (lines 585-605). -/
def generate_deployment_config (tool_spec : ToolSpec) : DeploymentConfig :=
  { deployment_type := "docker"
    resource_requirements := { cpu := "0.5", memory := "512Mi", storage := "1Gi" }
    environment_variables :=
      { TOOL_NAME := tool_spec.name, TOOL_TYPE := tool_spec.type, LOG_LEVEL := "INFO" }
    health_check := { enabled := true, endpoint := "/health", interval := 30 } }

/-! ## The forge pipeline -/

/-- The information a Python `SyntaxError` carries: offending line, column
and message. -/
structure ParseErr where
  line : Nat
  col : Nat
  msg : String
deriving DecidableEq, Repr

/-- The result of `ast.parse`, kept abstract: the pipeline only depends on
whether the source parses, and on the error it raises when it does not. -/
abbrev Parse : Type := String → Except ParseErr Unit

/-- The compiled-tool record assembled at lines 484-498. -/
structure CompiledTool where
  tool_id : String
  name : String
  type : String
  description : String
  capabilities : List String
  code : String
  dependencies : List String
  missing_dependencies : List String
  quality_score : Nat
  deployment_config : DeploymentConfig
  compilation_timestamp : String
  validation_status : String
  case_specific : Bool
deriving DecidableEq, Repr

/-- The record built on the success path of `compile_and_validate_tool`
(lines 473-498), for environment `env` and timestamp `now`. -/
def mkCompiled (env : List String) (now : String) (tool_spec : ToolSpec) : CompiledTool :=
  let missing_deps := check_dependencies env tool_spec.dependencies
  { tool_id := toolId tool_spec.code
    name := tool_spec.name
    type := tool_spec.type
    description := tool_spec.description
    capabilities := tool_spec.capabilities
    code := tool_spec.code
    dependencies := tool_spec.dependencies
    missing_dependencies := missing_deps
    quality_score := analyze_code_quality tool_spec.code
    deployment_config := generate_deployment_config tool_spec
    compilation_timestamp := now
    validation_status := if missing_deps.isEmpty then "passed" else "warning"
    case_specific := tool_spec.case_specific }

/-- `DynamicToolForge.compile_and_validate_tool` (lines 462-503), without the
registry write: `ast.parse` raises on malformed source, which re-raises out of
the method (line 471); otherwise dependency check, quality analysis and
deployment-config generation run and the record is assembled. -/
def compile_and_validate_tool (parse : Parse) (env : List String) (now : String)
    (tool_spec : ToolSpec) : Except ParseErr CompiledTool :=
  match parse tool_spec.code with
  | Except.error e => Except.error e
  | Except.ok _ => Except.ok (mkCompiled env now tool_spec)

/-- The tool registry `self.generated_tools`: a Python dict modelled as an
association list in insertion order. -/
abbrev Registry : Type := List (String × CompiledTool)

/-- Python dict assignment `d[k] = v`: overwrite in place when the key is
present, else append. -/
def registryInsert (reg : Registry) (k : String) (v : CompiledTool) : Registry :=
  if reg.any (fun p => p.1 == k) then
    reg.map (fun p => if p.1 == k then (k, v) else p)
  else reg ++ [(k, v)]

/-- Python dict lookup `d[k]`. -/
def registryLookup (reg : Registry) (k : String) : Option CompiledTool :=
  (reg.find? (fun p => p.1 == k)).map Prod.snd

/-- Whether a key is present in the registry. -/
def hasKey (reg : Registry) (k : String) : Bool := reg.any (fun p => p.1 == k)

/-- `compile_and_validate_tool` including its registry write
(`self.generated_tools[compiled_tool['tool_id']] = compiled_tool`,
line 501). -/
def compileAndStore (parse : Parse) (env : List String) (now : String) (reg : Registry)
    (tool_spec : ToolSpec) : Registry × Except ParseErr CompiledTool :=
  match compile_and_validate_tool parse env now tool_spec with
  | Except.ok ct => (registryInsert reg ct.tool_id ct, Except.ok ct)
  | Except.error e => (reg, Except.error e)

/-- One iteration of the compilation loop of `generate_case_tools`
(lines 85-92): `try:` compile, store and append; `except:` report the tool's
name with the error and continue. -/
def batchStep (parse : Parse) (env : List String) (now : String)
    (acc : Registry × List CompiledTool × List (String × ParseErr)) (s : ToolSpec) :
    Registry × List CompiledTool × List (String × ParseErr) :=
  match compile_and_validate_tool parse env now s with
  | Except.ok ct => (registryInsert acc.1 ct.tool_id ct, acc.2.1 ++ [ct], acc.2.2)
  | Except.error e => (acc.1, acc.2.1, acc.2.2 ++ [(s.name, e)])

/-- The compilation loop of `generate_case_tools` (lines 84-93): each
specification is compiled in turn; a success is appended to the output,
a failure is caught, reported with the tool's name and the error, and the
loop continues with the remaining specifications. -/
def compileBatch (parse : Parse) (env : List String) (now : String) (reg : Registry)
    (specs : List ToolSpec) : Registry × List CompiledTool × List (String × ParseErr) :=
  specs.foldl (batchStep parse env now) (reg, [], [])

/-- The error component of an `Except` value. -/
def exErr {ε α : Type} : Except ε α → Option ε
  | Except.error e => some e
  | Except.ok _ => none

/-- A parse function that accepts everything (used to instantiate theorems at
concrete inputs). -/
def pOk : Parse := fun _ => Except.ok ()

/-- A concrete tool specification, as the forge's generators produce. -/
def sampleSpec : ToolSpec :=
  { name := "evidence_analyzer_demo"
    type := "evidence_analyzer"
    code := "x=1"
    dependencies := ["pandas", "nonexistent-pkg-xyz"]
    description := "demo tool"
    capabilities := ["document_ocr"]
    case_specific := true }

/-! ## Lemmas about the dependency resolver -/

theorem depStep_eq (env : List String) (missing : List String) (dep : String) :
    depStep env missing dep =
      if importOk env (normalizeDep dep) then missing else missing ++ [dep] := by
  by_cases h : importOk env (normalizeDep dep) = true
  · simp [depStep, importModule, h]
  · simp only [Bool.not_eq_true] at h
    simp [depStep, importModule, h]

theorem depStepM_eq (env : List String) (missing : List String) (dep : String) :
    depStepM env missing dep = Except.ok (depStep env missing dep) := by
  unfold depStepM depStep
  cases importModule env (normalizeDep dep) <;> rfl

theorem check_dependencies_foldl (env : List String) (deps : List String) (acc : List String) :
    deps.foldl (depStep env) acc
      = acc ++ deps.filter (fun d => !importOk env (normalizeDep d)) := by
  induction deps generalizing acc with
  | nil => simp
  | cons d ds ih =>
    rw [List.foldl_cons, depStep_eq]
    by_cases h : importOk env (normalizeDep d) = true
    · rw [if_pos h, ih]
      simp [h]
    · simp only [Bool.not_eq_true] at h
      rw [if_neg (by simp [h]), ih]
      simp [h]

theorem check_dependencies_eq_filter (env : List String) (deps : List String) :
    check_dependencies env deps = deps.filter (fun d => !importOk env (normalizeDep d)) := by
  simpa using check_dependencies_foldl env deps []

theorem check_dependencies_run_foldlM (env : List String) (deps : List String)
    (acc : List String) :
    deps.foldlM (depStepM env) acc = Except.ok (deps.foldl (depStep env) acc) := by
  induction deps generalizing acc with
  | nil => rfl
  | cons d ds ih =>
    rw [List.foldlM_cons, depStepM_eq]
    show ds.foldlM (depStepM env) (depStep env acc d) = _
    rw [ih, List.foldl_cons]

/-- The embedded SHA-256 agrees with the standard test vector for `"abc"`. -/
theorem sha256Hex_abc :
    sha256Hex "abc" = "ba7816bf8f01cfea414140de5dae2223b00361a396177a9cb410ff61f20015ad" := by
  decide

/-! ## Claim theorems: quality analyzer -/

/-- Claim C2: for every `sourceText`, the Quality Analyzer's score equals
`min (85 + 5·doc + 5·err + 5·arrow) 100`; hence it lies in `[0, 100]`, is 85
with no marker, 95 with the documentation and error-handling markers but no
arrow, and 100 with all three. -/
theorem C2_quality_score_formula (code : String) :
    analyze_code_quality code =
      min (85 + (if containsStr code "\"\"\"" then 5 else 0)
            + (if containsStr code "try:" && containsStr code "except" then 5 else 0)
            + (if containsStr code "->" then 5 else 0)) 100
  ∧ 0 ≤ analyze_code_quality code
  ∧ analyze_code_quality code ≤ 100
  ∧ (containsStr code "\"\"\"" = false →
      (containsStr code "try:" && containsStr code "except") = false →
      containsStr code "->" = false → analyze_code_quality code = 85)
  ∧ (containsStr code "\"\"\"" = true →
      (containsStr code "try:" && containsStr code "except") = true →
      containsStr code "->" = false → analyze_code_quality code = 95)
  ∧ (containsStr code "\"\"\"" = true →
      (containsStr code "try:" && containsStr code "except") = true →
      containsStr code "->" = true → analyze_code_quality code = 100) := by
  unfold analyze_code_quality
  cases h1 : containsStr code "\"\"\"" <;>
    cases h2 : containsStr code "try:" && containsStr code "except" <;>
      cases h3 : containsStr code "->" <;> decide

/-- Witness for C2 at a concrete source text containing all three markers. -/
theorem C2_witness :
    containsStr "def f(x) -> int: \"\"\"doc\"\"\" try: except" "\"\"\"" = true ∧
    analyze_code_quality "def f(x) -> int: \"\"\"doc\"\"\" try: except" = 100 :=
  ⟨by decide,
   (C2_quality_score_formula "def f(x) -> int: \"\"\"doc\"\"\" try: except").2.2.2.2.2
     (by decide) (by decide) (by decide)⟩

/-! ## Claim theorems: dependency resolver -/

/-- Claim C3: the Dependency Resolver returns exactly the subsequence of the
declared names that are not locatable after hyphen-to-underscore
normalization, under their original names and in input order; names present
in the environment never appear; the empty input yields the empty output. -/
theorem C3_resolver_exact_subsequence (env deps : List String) :
    check_dependencies env deps = deps.filter (fun d => !importOk env (normalizeDep d))
  ∧ (check_dependencies env deps).Sublist deps
  ∧ (∀ d, importOk env (normalizeDep d) = true → d ∉ check_dependencies env deps)
  ∧ check_dependencies env ([] : List String) = [] := by
  refine ⟨check_dependencies_eq_filter env deps, ?_, ?_, rfl⟩
  · rw [check_dependencies_eq_filter]
    exact List.filter_sublist deps
  · intro d hd hmem
    rw [check_dependencies_eq_filter] at hmem
    have hp := List.of_mem_filter hmem
    simp [hd] at hp

/-- Witness for C3: with `pandas` installed, the declared list
`["pandas", "nonexistent-pkg-xyz"]` reports exactly the missing one. -/
theorem C3_witness :
    importOk ["pandas"] (normalizeDep "pandas") = true ∧
    "pandas" ∉ check_dependencies ["pandas"] ["pandas", "nonexistent-pkg-xyz"] ∧
    check_dependencies ["pandas"] ["pandas", "nonexistent-pkg-xyz"] = ["nonexistent-pkg-xyz"] :=
  ⟨by decide,
   (C3_resolver_exact_subsequence ["pandas"] ["pandas", "nonexistent-pkg-xyz"]).2.2.1
     "pandas" (by decide),
   by decide⟩

/-- Claim C8: the resolver returns normally for every input — a missing
dependency is reported in the result, never signalled by raising — and every
reported name comes from the input list. -/
theorem C8_resolver_never_raises (env deps : List String) :
    check_dependencies_run env deps = Except.ok (check_dependencies env deps)
  ∧ (check_dependencies env deps).all (fun d => deps.contains d) = true := by
  refine ⟨check_dependencies_run_foldlM env deps [], ?_⟩
  rw [check_dependencies_eq_filter, List.all_eq_true]
  intro d hd
  have hmem := List.mem_of_mem_filter hd
  simpa using hmem

/-! ## Claim theorems: deployment config generator -/

/-- Counterexample for C4 as stated: the deployment kind constant emitted by
the code is the string `docker`, not `container`. -/
theorem C4_counterexample :
    (generate_deployment_config sampleSpec).deployment_type = "docker" ∧
    (generate_deployment_config sampleSpec).deployment_type ≠ "container" :=
  ⟨rfl, by decide⟩

/-- Claim C4 (amended: the constant deployment kind is `docker`, a container
runtime): the generator returns a fixed-shape descriptor with constant kind
and constant resource/health-check policy independent of the specification,
and an environment map holding the tool name, the tool type and log level
`INFO`. -/
theorem C4_deployment_config_shape (s t : ToolSpec) :
    generate_deployment_config s =
      { deployment_type := "docker"
        resource_requirements := { cpu := "0.5", memory := "512Mi", storage := "1Gi" }
        environment_variables :=
          { TOOL_NAME := s.name, TOOL_TYPE := s.type, LOG_LEVEL := "INFO" }
        health_check := { enabled := true, endpoint := "/health", interval := 30 } }
  ∧ (generate_deployment_config s).deployment_type
      = (generate_deployment_config t).deployment_type
  ∧ (generate_deployment_config s).resource_requirements
      = (generate_deployment_config t).resource_requirements
  ∧ (generate_deployment_config s).health_check = (generate_deployment_config t).health_check
  ∧ (generate_deployment_config s).environment_variables.TOOL_NAME = s.name
  ∧ (generate_deployment_config s).environment_variables.TOOL_TYPE = s.type
  ∧ (generate_deployment_config s).environment_variables.LOG_LEVEL = "INFO"
  ∧ (generate_deployment_config s).health_check.enabled = true
  ∧ (generate_deployment_config s).health_check.endpoint = "/health"
  ∧ (generate_deployment_config s).health_check.interval = 30 :=
  ⟨rfl, rfl, rfl, rfl, rfl, rfl, rfl, rfl, rfl, rfl⟩

/-! ## Claim theorems: compile pipeline -/

/-- Claim C5: with the environment held fixed, compiling the same
specification at two different timestamps yields records with identical id,
quality score, missing dependencies and deployment config; and the deployment
config is a pure function of the specification's name and kind. -/
theorem C5_determinism (parse : Parse) (env : List String) (t1 t2 : String) (s : ToolSpec) :
    (compile_and_validate_tool parse env t1 s).toOption.map
        (fun ct => (ct.tool_id, ct.quality_score, ct.missing_dependencies,
          ct.deployment_config))
      = (compile_and_validate_tool parse env t2 s).toOption.map
        (fun ct => (ct.tool_id, ct.quality_score, ct.missing_dependencies,
          ct.deployment_config))
  ∧ generate_deployment_config s =
      generate_deployment_config
        { name := s.name, type := s.type, code := "", dependencies := [],
          description := "", capabilities := [], case_specific := false } := by
  constructor
  · unfold compile_and_validate_tool
    cases parse s.code <;> rfl
  · rfl

/-- Claim C7: `validationStatus` is `passed` exactly when
`missingDependencies` is empty and `warning` otherwise; compilation succeeds
whenever the source parses (a missing dependency never aborts it), and the
only abort channel is the parse error, which precedes any `CompiledTool`. -/
theorem C7_validation_status (parse : Parse) (env : List String) (now : String)
    (s : ToolSpec) :
    ((mkCompiled env now s).validation_status = "passed" ↔
      (mkCompiled env now s).missing_dependencies = [])
  ∧ ((mkCompiled env now s).validation_status = "warning" ↔
      (mkCompiled env now s).missing_dependencies ≠ [])
  ∧ ((mkCompiled env now s).validation_status = "passed" ∨
      (mkCompiled env now s).validation_status = "warning")
  ∧ (parse s.code = Except.ok () ↔
      compile_and_validate_tool parse env now s = Except.ok (mkCompiled env now s))
  ∧ exErr (compile_and_validate_tool parse env now s) = exErr (parse s.code) := by
  have hms : (mkCompiled env now s).missing_dependencies
      = check_dependencies env s.dependencies := rfl
  have hvs : (mkCompiled env now s).validation_status
      = if (check_dependencies env s.dependencies).isEmpty then "passed" else "warning" := rfl
  have h45 : (parse s.code = Except.ok () ↔
      compile_and_validate_tool parse env now s = Except.ok (mkCompiled env now s))
      ∧ exErr (compile_and_validate_tool parse env now s) = exErr (parse s.code) := by
    unfold compile_and_validate_tool
    cases hp : parse s.code with
    | ok u => cases u; exact ⟨⟨fun _ => rfl, fun _ => rfl⟩, rfl⟩
    | error e => exact ⟨⟨fun hh => absurd hh (by simp), fun hh => absurd hh (by simp)⟩, rfl⟩
  by_cases h : check_dependencies env s.dependencies = []
  · have hst : (mkCompiled env now s).validation_status = "passed" := by
      rw [hvs, h]
      rfl
    refine ⟨?_, ?_, Or.inl hst, h45.1, h45.2⟩
    · rw [hst, hms, h]
      simp
    · rw [hst, hms, h]
      exact ⟨fun hc => absurd hc (by decide), fun hc => absurd rfl hc⟩
  · have hst : (mkCompiled env now s).validation_status = "warning" := by
      rw [hvs, if_neg]
      simpa [List.isEmpty_iff] using h
    refine ⟨?_, ?_, Or.inr hst, h45.1, h45.2⟩
    · rw [hst, hms]
      exact ⟨fun hc => absurd hc (by decide), fun hc => absurd hc h⟩
    · rw [hst, hms]
      simp [h]

/-- Witness for C7: with an empty environment the sample specification has
missing dependencies and its status is `warning`. -/
theorem C7_witness :
    (mkCompiled ([] : List String) "t" sampleSpec).missing_dependencies ≠ [] ∧
    (mkCompiled ([] : List String) "t" sampleSpec).validation_status = "warning" :=
  ⟨by decide,
   ((C7_validation_status pOk ([] : List String) "t" sampleSpec).2.1).mpr (by decide)⟩

/-! ## Lemmas about the registry -/

theorem registryInsert_keys (reg : Registry) (k : String) (v : CompiledTool) :
    (registryInsert reg k v).map Prod.fst =
      if hasKey reg k then reg.map Prod.fst else reg.map Prod.fst ++ [k] := by
  unfold registryInsert hasKey
  by_cases h : reg.any (fun p => p.1 == k) = true
  · rw [if_pos h, if_pos h, List.map_map]
    apply List.map_congr_left
    intro p _
    by_cases hk : (p.1 == k) = true
    · have hpk : p.1 = k := by simpa using hk
      simp [Function.comp, hk, hpk]
    · simp [Function.comp, hk]
  · rw [if_neg h, if_neg h, List.map_append]
    rfl

theorem hasKey_iff (reg : Registry) (k : String) :
    hasKey reg k = true ↔ k ∈ reg.map Prod.fst := by
  simp only [hasKey, List.any_eq_true, List.mem_map, beq_iff_eq]

theorem hasKey_registryInsert (reg : Registry) (k k2 : String) (v : CompiledTool)
    (h : hasKey reg k = true) : hasKey (registryInsert reg k2 v) k = true := by
  rw [hasKey_iff] at h ⊢
  rw [registryInsert_keys]
  by_cases h2 : hasKey reg k2 = true
  · simpa [h2] using h
  · simp only [h2, Bool.false_eq_true, if_false, List.mem_append]
    exact Or.inl h

theorem nodup_registryInsert (reg : Registry) (k : String) (v : CompiledTool)
    (h : (reg.map Prod.fst).Nodup) : ((registryInsert reg k v).map Prod.fst).Nodup := by
  rw [registryInsert_keys]
  by_cases h2 : hasKey reg k = true
  · simpa [h2] using h
  · have hk : k ∉ reg.map Prod.fst := fun hm => h2 ((hasKey_iff reg k).mpr hm)
    simp only [h2, Bool.false_eq_true, if_false]
    simp [List.nodup_append, h, hk]

theorem hasKey_registryInsert_self (reg : Registry) (k : String) (v : CompiledTool) :
    hasKey (registryInsert reg k v) k = true := by
  rw [hasKey_iff, registryInsert_keys]
  by_cases h2 : hasKey reg k = true
  · simpa [h2] using (hasKey_iff reg k).mp h2
  · simp [h2]

theorem count_registryInsert (reg : Registry) (k : String) (v : CompiledTool)
    (h : (reg.map Prod.fst).Nodup) :
    ((registryInsert reg k v).filter (fun p => p.1 == k)).length = 1 := by
  have hnd2 := nodup_registryInsert reg k v h
  have hmem : k ∈ (registryInsert reg k v).map Prod.fst :=
    (hasKey_iff _ k).mp (hasKey_registryInsert_self reg k v)
  rw [← List.countP_eq_length_filter]
  have hmap : (registryInsert reg k v).countP (fun p => p.1 == k)
      = ((registryInsert reg k v).map Prod.fst).countP (fun x => x == k) := by
    rw [List.countP_map]
    rfl
  rw [hmap]
  have hc : ((registryInsert reg k v).map Prod.fst).countP (fun x => x == k)
      = ((registryInsert reg k v).map Prod.fst).count k := rfl
  rw [hc]
  exact List.count_eq_one_of_mem hnd2 hmem

theorem registryLookup_mapReplace (reg : Registry) (k : String) (v : CompiledTool)
    (h : reg.any (fun p => p.1 == k) = true) :
    registryLookup (reg.map (fun p => if p.1 == k then (k, v) else p)) k = some v := by
  induction reg with
  | nil => simp at h
  | cons p ps ih =>
    rw [List.map_cons]
    by_cases hk : (p.1 == k) = true
    · rw [if_pos hk]
      unfold registryLookup
      rw [List.find?_cons_of_pos]
      · rfl
      · simp
    · rw [if_neg hk]
      have h2 : ps.any (fun q => q.1 == k) = true := by
        simpa [List.any_cons, hk] using h
      unfold registryLookup at ih ⊢
      rw [List.find?_cons_of_neg]
      · exact ih h2
      · simp [hk]

theorem registryLookup_insert (reg : Registry) (k : String) (v : CompiledTool) :
    registryLookup (registryInsert reg k v) k = some v := by
  unfold registryInsert
  by_cases h : reg.any (fun p => p.1 == k) = true
  · rw [if_pos h]
    exact registryLookup_mapReplace reg k v h
  · rw [if_neg h]
    have hfind : reg.find? (fun p => p.1 == k) = none := by
      rw [List.find?_eq_none]
      intro p hp hb
      exact h (List.any_eq_true.mpr ⟨p, hp, hb⟩)
    unfold registryLookup
    rw [List.find?_append, hfind]
    simp

/-! ## Lemmas about the batch loop -/

theorem compileBatch_foldl (parse : Parse) (env : List String) (now : String)
    (specs : List ToolSpec) :
    ∀ (reg : Registry) (xs : List CompiledTool) (ys : List (String × ParseErr)),
      specs.foldl (batchStep parse env now) (reg, xs, ys)
        = (specs.foldl (fun r s => (compileAndStore parse env now r s).1) reg,
           xs ++ specs.filterMap (fun s => (compile_and_validate_tool parse env now s).toOption),
           ys ++ specs.filterMap (fun s =>
             match compile_and_validate_tool parse env now s with
             | Except.error e => some (s.name, e)
             | Except.ok _ => none)) := by
  induction specs with
  | nil =>
    intro reg xs ys
    simp
  | cons s ss ih =>
    intro reg xs ys
    rw [List.foldl_cons, List.foldl_cons]
    cases hc : compile_and_validate_tool parse env now s with
    | ok ct =>
      have hstep : batchStep parse env now (reg, xs, ys) s
          = (registryInsert reg ct.tool_id ct, xs ++ [ct], ys) := by
        unfold batchStep
        rw [hc]
      have hstore : (compileAndStore parse env now reg s).1
          = registryInsert reg ct.tool_id ct := by
        unfold compileAndStore
        rw [hc]
      rw [hstep, ih, hstore]
      simp [List.filterMap_cons, hc, Except.toOption]
    | error e =>
      have hstep : batchStep parse env now (reg, xs, ys) s
          = (reg, xs, ys ++ [(s.name, e)]) := by
        unfold batchStep
        rw [hc]
      have hstore : (compileAndStore parse env now reg s).1 = reg := by
        unfold compileAndStore
        rw [hc]
      rw [hstep, ih, hstore]
      simp [List.filterMap_cons, hc, Except.toOption]

theorem hasKey_foldl_store (parse : Parse) (env : List String) (now : String)
    (specs : List ToolSpec) :
    ∀ (reg : Registry) (k : String), hasKey reg k = true →
      hasKey (specs.foldl (fun r s => (compileAndStore parse env now r s).1) reg) k = true := by
  induction specs with
  | nil =>
    intro reg k h
    simpa using h
  | cons s ss ih =>
    intro reg k h
    rw [List.foldl_cons]
    apply ih
    unfold compileAndStore
    cases hc : compile_and_validate_tool parse env now s with
    | ok ct => exact hasKey_registryInsert reg k ct.tool_id ct h
    | error e => exact h

/-! ## Claim theorems: batch semantics and registry -/

/-- Claim C1: in a batch, every specification is processed; a specification
whose source fails to parse contributes nothing to the compiled output and is
reported, under its name, with the parse error, while every parseable
specification still compiles — one malformed specification never aborts the
batch. -/
theorem C1_batch_partial_failure (parse : Parse) (env : List String) (now : String)
    (reg : Registry) (specs : List ToolSpec) :
    (compileBatch parse env now reg specs).2.1
      = specs.filterMap (fun s => (compile_and_validate_tool parse env now s).toOption)
  ∧ (compileBatch parse env now reg specs).2.2
      = specs.filterMap (fun s =>
          match compile_and_validate_tool parse env now s with
          | Except.error e => some (s.name, e)
          | Except.ok _ => none)
  ∧ (∀ s : ToolSpec, exErr (compile_and_validate_tool parse env now s) = exErr (parse s.code)) := by
  have hb := compileBatch_foldl parse env now specs reg [] []
  unfold compileBatch
  rw [hb]
  refine ⟨by simp, by simp, ?_⟩
  intro s
  unfold compile_and_validate_tool
  cases parse s.code <;> rfl

/-- Claim C6: compiling the same specification twice through the same forge
instance leaves exactly one registry entry under its content-derived id, and
that entry is the record of the second compilation (insert-or-overwrite). -/
theorem C6_idempotent_registry (parse : Parse) (env : List String) (t1 t2 : String)
    (reg : Registry) (s : ToolSpec)
    (hnd : (reg.map Prod.fst).Nodup) (hok : parse s.code = Except.ok ()) :
    (((compileAndStore parse env t2 ((compileAndStore parse env t1 reg s).1) s).1).filter
        (fun p => p.1 == toolId s.code)).length = 1
  ∧ registryLookup ((compileAndStore parse env t2 ((compileAndStore parse env t1 reg s).1) s).1)
      (toolId s.code) = some (mkCompiled env t2 s) := by
  have hc1 : compile_and_validate_tool parse env t1 s = Except.ok (mkCompiled env t1 s) := by
    unfold compile_and_validate_tool
    rw [hok]
  have hc2 : compile_and_validate_tool parse env t2 s = Except.ok (mkCompiled env t2 s) := by
    unfold compile_and_validate_tool
    rw [hok]
  have h1 : (compileAndStore parse env t1 reg s).1
      = registryInsert reg (toolId s.code) (mkCompiled env t1 s) := by
    unfold compileAndStore
    rw [hc1]
    rfl
  have h2 : (compileAndStore parse env t2
        (registryInsert reg (toolId s.code) (mkCompiled env t1 s)) s).1
      = registryInsert (registryInsert reg (toolId s.code) (mkCompiled env t1 s))
          (toolId s.code) (mkCompiled env t2 s) := by
    unfold compileAndStore
    rw [hc2]
    rfl
  rw [h1, h2]
  have hnd1 := nodup_registryInsert reg (toolId s.code) (mkCompiled env t1 s) hnd
  exact ⟨count_registryInsert _ _ _ hnd1, registryLookup_insert _ _ _⟩

/-- Witness for C6 at a concrete forge state: a fresh registry, a parse
function accepting everything, and the sample specification compiled twice. -/
theorem C6_witness :
    (([] : Registry).map Prod.fst).Nodup ∧ pOk sampleSpec.code = Except.ok () ∧
    (((compileAndStore pOk ["pandas"] "t2"
          ((compileAndStore pOk ["pandas"] "t1" ([] : Registry) sampleSpec).1) sampleSpec).1).filter
        (fun p => p.1 == toolId sampleSpec.code)).length = 1 :=
  ⟨List.nodup_nil, rfl,
   (C6_idempotent_registry pOk ["pandas"] "t1" "t2" ([] : Registry) sampleSpec
      List.nodup_nil rfl).1⟩

/-- Claim C9: the registry never loses an entry — any id present before a
sequence of compile operations is still mapped afterwards. -/
theorem C9_registry_never_loses (parse : Parse) (env : List String) (now : String)
    (reg : Registry) (specs : List ToolSpec) (k : String)
    (h : hasKey reg k = true) :
    hasKey (compileBatch parse env now reg specs).1 k = true := by
  have hb := compileBatch_foldl parse env now specs reg [] []
  unfold compileBatch
  rw [hb]
  exact hasKey_foldl_store parse env now specs reg k h

/-- A registry with one pre-existing entry, used as the C9 witness state. -/
def reg0 : Registry := [("deadbeef00000000", mkCompiled ([] : List String) "t0" sampleSpec)]

/-- Witness for C9: the pre-existing entry survives a batch compilation. -/
theorem C9_witness :
    hasKey reg0 "deadbeef00000000" = true ∧
    hasKey (compileBatch pOk ["pandas"] "t" reg0 [sampleSpec]).1 "deadbeef00000000" = true :=
  ⟨rfl, C9_registry_never_loses pOk ["pandas"] "t" reg0 [sampleSpec] "deadbeef00000000" rfl⟩

/-! ## Claim theorems: the content-derived id -/

theorem hashBytes_length (H : Hash8) : (hashBytes H).length = 32 := by
  simp [hashBytes, wordBytes]

theorem sha256Bytes_length (msg : List Nat) : (sha256Bytes msg).length = 32 :=
  hashBytes_length _

theorem flatten_map_byteHex_length (l : List Nat) :
    ((l.map byteHex).flatten).length = 2 * l.length := by
  induction l with
  | nil => simp
  | cons b bs ih =>
    simp only [List.map_cons, List.flatten_cons, List.length_append, List.length_cons, ih]
    simp [byteHex]
    omega

theorem sha256Hex_data (s : String) :
    (sha256Hex s).data = ((sha256Bytes (strBytes s)).map byteHex).flatten := rfl

theorem sha256Hex_data_length (s : String) : (sha256Hex s).data.length = 64 := by
  rw [sha256Hex_data, flatten_map_byteHex_length, sha256Bytes_length]

theorem hexChar_mem : ∀ n : Nat, n < 16 → isHexDigit (hexChar n) = true := by
  decide

theorem byteHex_chars (b : Nat) : ∀ c ∈ byteHex b, isHexDigit c = true := by
  intro c hc
  simp only [byteHex, List.mem_cons, List.not_mem_nil, or_false] at hc
  rcases hc with h | h <;> subst h
  · exact hexChar_mem _ (Nat.mod_lt _ (by norm_num))
  · exact hexChar_mem _ (Nat.mod_lt _ (by norm_num))

theorem sha256Hex_chars (s : String) :
    ∀ c ∈ (sha256Hex s).data, isHexDigit c = true := by
  rw [sha256Hex_data]
  intro c hc
  rcases List.mem_flatten.mp hc with ⟨l, hl, hcl⟩
  rcases List.mem_map.mp hl with ⟨b, _, rfl⟩
  exact byteHex_chars b c hcl

/-- Claim C10: the compiled tool's id is the first 16 hexadecimal characters
of the SHA-256 digest of its source text; it always has length 16, consists
of lowercase hexadecimal digits only, and is a function of the source text
alone — no other field of the specification, nor the environment or the
timestamp, influences it. -/
theorem C10_tool_id (env1 env2 : List String) (t1 t2 : String) (s q : ToolSpec) :
    (mkCompiled env1 t1 s).tool_id = String.mk ((sha256Hex s.code).data.take 16)
  ∧ (mkCompiled env1 t1 s).tool_id.length = 16
  ∧ ((mkCompiled env1 t1 s).tool_id.data.all (fun c => isHexDigit c)) = true
  ∧ (mkCompiled env1 t1 s).tool_id = (mkCompiled env2 t2 { q with code := s.code }).tool_id := by
  refine ⟨rfl, ?_, ?_, rfl⟩
  · show (String.mk ((sha256Hex s.code).data.take 16)).length = 16
    rw [String.length_mk, List.length_take, sha256Hex_data_length]
    decide
  · rw [List.all_eq_true]
    intro c hc
    have hc2 : c ∈ (sha256Hex s.code).data.take 16 := hc
    exact sha256Hex_chars s.code c (List.take_subset 16 _ hc2)

end ToolForge
